import Mathlib

/-!
Verification development for the DermaSim acne simulation engine
(src/simulation.js, class AcneSimulation, with callers in src/main.js).

The engine state is shallowly embedded as a Lean structure over the
rationals: JavaScript numbers are modelled as exact rationals, since every
operation the engine performs is addition, subtraction, multiplication,
division by a constant, min and max.  The stage is a string, exactly as in
the source.  Methods become pure functions from state to state; the one
method call that can raise a TypeError (checkStageTransitions invoking the
nonexistent method updateStageVisuals) is modelled by pairing the mutated
state with a Boolean thrown-exception flag, because in JavaScript the field
mutations performed before the failing call persist on the object.

Omissions, each irrelevant to every claim proved below:
the console.log calls; the lastLogTime field written by the periodic
logging block of updateBiologicalState (it gates console output only and
is read nowhere else); the DOM and window.visualization updates in
setStage, updateProgressBar, updateVisualization, updateUI and
updateParameterDisplays, which read engine state and write only to the
page, never to the engine.
-/

namespace DermaSim

/-- The instance fields of AcneSimulation (src/simulation.js lines 4-45)
that participate in the simulation logic.  The threshold fields are
constants of the class, never reassigned, and are modelled as top-level
definitions below.  The fields baselineInflammation and humidityEffect are
first assigned inside updateDerivedRates (lines 57, 63); before the first
tick JavaScript leaves them undefined, and no code path ever reads them,
so their construction-time value is immaterial. -/
@[ext] structure SimState where
  simulationTime : ℚ
  simulationStage : String
  sebumValue : ℚ
  bacteriaValue : ℚ
  medicationValue : ℚ
  inflammationValue : ℚ
  healingValue : ℚ
  temperatureValue : ℚ
  humidityValue : ℚ
  frictionValue : ℚ
  sebumRate : ℚ
  bacteriaGrowthRate : ℚ
  baselineInflammation : ℚ
  humidityEffect : ℚ
  currentSebumLevel : ℚ
  currentBacteriaLevel : ℚ
  currentInflammationLevel : ℚ
  currentNeutrophilLevel : ℚ
  currentPusLevel : ℚ
  currentMedicationLevel : ℚ
  progressionAccelerator : ℚ
  healingProgress : ℚ

/-- Threshold constant: sebum level to form a comedone (line 32). -/
def SEBUM_THRESHOLD : ℚ := 70
/-- Threshold constant: bacteria to trigger inflammation (line 33). -/
def BACTERIA_THRESHOLD : ℚ := 60
/-- Threshold constant: inflammation to form papule (line 34). -/
def INFLAMMATION_THRESHOLD : ℚ := 40
/-- Threshold constant: inflammation level to form pustule (line 35). -/
def PUS_THRESHOLD : ℚ := 70
/-- Threshold constant: pus level to trigger rupture (line 36). -/
def RUPTURE_THRESHOLD : ℚ := 90
/-- Threshold constant: healing progress to enter healing stage (line 37). -/
def HEALING_THRESHOLD : ℚ := 30
/-- Threshold constant: healing progress to consider resolved (line 38). -/
def RESOLVED_THRESHOLD : ℚ := 80

/-- The construction-time state of AcneSimulation (constructor, lines 4-45).
The two write-only derived fields default to the values their formulas give
at the default slider positions (friction 0, humidity 500). -/
def initialState : SimState where
  simulationTime := 0
  simulationStage := "incubation"
  sebumValue := 500
  bacteriaValue := 200
  medicationValue := 0
  inflammationValue := 500
  healingValue := 500
  temperatureValue := 500
  humidityValue := 500
  frictionValue := 0
  sebumRate := 0.05
  bacteriaGrowthRate := 0.05
  baselineInflammation := 0
  humidityEffect := 1
  currentSebumLevel := 20
  currentBacteriaLevel := 0
  currentInflammationLevel := 0
  currentNeutrophilLevel := 0
  currentPusLevel := 0
  currentMedicationLevel := 0
  progressionAccelerator := 1
  healingProgress := 0

/-- updateDerivedRates (lines 48-70): recompute the derived rates from the
slider values and low-pass filter the medication level. -/
def updateDerivedRates (s : SimState) : SimState :=
  { s with
    sebumRate := 0.05 * (1 + 0.002 * (s.temperatureValue - 500)) * s.progressionAccelerator
    bacteriaGrowthRate :=
      0.05 * (1 + 0.001 * (s.temperatureValue - 500)) *
        (1 - s.medicationValue / 2000) * s.progressionAccelerator
    baselineInflammation :=
      if s.frictionValue > 300 then (s.frictionValue - 300) / 1400 else 0
    humidityEffect :=
      if s.humidityValue > 600 then 1 + (s.humidityValue - 600) / 800 else 1
    currentMedicationLevel :=
      s.currentMedicationLevel * 0.99 + s.medicationValue * 0.01 }

/-- Sebum block of updateBiologicalState (lines 74-76). -/
def stepSebum (s : SimState) (dt : ℚ) : SimState :=
  let scaledSebumRate := s.sebumRate * (s.sebumValue / 500) * dt
  { s with currentSebumLevel := min 100 (s.currentSebumLevel + scaledSebumRate) }

/-- Bacteria block of updateBiologicalState (lines 78-90): growth once a
comedone has formed, then the medication kill term, floored at 0. -/
def stepBacteria (s : SimState) (dt : ℚ) : SimState :=
  if s.simulationStage ≠ "incubation" then
    let baseBacteriaGrowth :=
      if s.currentBacteriaLevel > 0 then
        s.currentBacteriaLevel * s.bacteriaGrowthRate * dt
      else
        s.bacteriaValue / 100 * dt * 2.0
    let grown := min 100 (s.currentBacteriaLevel + baseBacteriaGrowth)
    let treated :=
      if s.medicationValue > 0 then
        max 0 (grown - s.medicationValue / 10000 * dt)
      else grown
    { s with currentBacteriaLevel := treated }
  else s

/-- Inflammation and neutrophil block of updateBiologicalState
(lines 92-104). -/
def stepInflammation (s : SimState) (dt : ℚ) : SimState :=
  if s.currentBacteriaLevel > BACTERIA_THRESHOLD ∨
      (s.simulationStage = "comedone" ∨ s.simulationStage = "papule") then
    let inflammationRate :=
      (max s.currentBacteriaLevel 30 - 30) / 40 *
        (s.inflammationValue / 500) * dt * s.progressionAccelerator
    let inflamed := min 100 (s.currentInflammationLevel + inflammationRate)
    let neut :=
      if inflamed > INFLAMMATION_THRESHOLD / 2 then
        min 100 (s.currentNeutrophilLevel + inflammationRate * 2.0)
      else s.currentNeutrophilLevel
    { s with currentInflammationLevel := inflamed, currentNeutrophilLevel := neut }
  else s

/-- Pus block of updateBiologicalState (lines 106-110). -/
def stepPus (s : SimState) (dt : ℚ) : SimState :=
  if s.currentNeutrophilLevel > 10 ∧
      (s.simulationStage = "papule" ∨ s.simulationStage = "pustule") then
    let pus :=
      min 100 (s.currentPusLevel +
        s.currentNeutrophilLevel / 80 * dt * s.progressionAccelerator)
    { s with currentPusLevel := pus }
  else s

/-- Healing block of updateBiologicalState (lines 112-128): decay of
inflammation, neutrophils and pus, the level-driven promotion of a healing
stage to resolved, and the healing progress accumulator.  The promotion
condition reads the freshly decayed inflammation and pus values, exactly as
the source does after its assignments. -/
def stepHealing (s : SimState) (dt : ℚ) : SimState :=
  if s.simulationStage = "healing" ∨ s.simulationStage = "resolved" then
    let healingRate := s.healingValue / 500 * dt
    let inflamed := max 0 (s.currentInflammationLevel - healingRate)
    let neut := max 0 (s.currentNeutrophilLevel - healingRate * 1.2)
    let pus := max 0 (s.currentPusLevel - healingRate * 0.8)
    let stage :=
      if s.simulationStage = "healing" ∧ inflamed < 10 ∧ pus < 5 then
        "resolved"
      else s.simulationStage
    { s with
      currentInflammationLevel := inflamed
      currentNeutrophilLevel := neut
      currentPusLevel := pus
      simulationStage := stage
      healingProgress := min (s.healingProgress + healingRate) 100 }
  else s

/-- updateBiologicalState (lines 73-135): the five blocks in source order.
The trailing periodic console.log block (lines 130-134) writes only the
log and the lastLogTime log timer, which nothing reads. -/
def updateBiologicalState (s : SimState) (dt : ℚ) : SimState :=
  stepHealing (stepPus (stepInflammation (stepBacteria (stepSebum s dt) dt) dt) dt) dt

/-- checkStageTransitions (lines 138-212).  Every branch that fires a
transition assigns simulationStage and then calls this.updateStageVisuals();
AcneSimulation defines no method of that name (it exists only on
AcneVisualization in src/visualization.js) and nothing ever assigns one to
the simulation instance, so in JavaScript the call raises a TypeError after
the stage field has already been mutated.  The Boolean component records
that the TypeError was thrown. -/
def checkStageTransitions (s : SimState) : SimState × Bool :=
  if s.simulationStage = "incubation" then
    if s.currentBacteriaLevel > BACTERIA_THRESHOLD ∧
        s.currentInflammationLevel > INFLAMMATION_THRESHOLD then
      ({ s with simulationStage := "comedone" }, true)
    else (s, false)
  else if s.simulationStage = "comedone" then
    if s.currentInflammationLevel > INFLAMMATION_THRESHOLD then
      ({ s with simulationStage := "papule" }, true)
    else (s, false)
  else if s.simulationStage = "papule" then
    if s.currentPusLevel > PUS_THRESHOLD then
      ({ s with simulationStage := "pustule" }, true)
    else (s, false)
  else if s.simulationStage = "pustule" then
    if s.currentPusLevel > RUPTURE_THRESHOLD then
      ({ s with simulationStage := "rupture" }, true)
    else (s, false)
  else if s.simulationStage = "rupture" then
    if s.healingProgress > HEALING_THRESHOLD then
      ({ s with simulationStage := "healing" }, true)
    else if s.currentBacteriaLevel > BACTERIA_THRESHOLD ∨
        s.currentInflammationLevel > BACTERIA_THRESHOLD then
      ({ s with simulationStage := "worsening" }, true)
    else (s, false)
  else if s.simulationStage = "healing" then
    if s.healingProgress ≥ RESOLVED_THRESHOLD then
      ({ s with simulationStage := "resolved" }, true)
    else (s, false)
  else (s, false)

/-- updateParameters (lines 518-528): advance simulationTime by the
hard-coded 1/60 hour (the source comment reads Assuming 60fps), recompute
the derived rates, then integrate the biological state with dt = 1/60. -/
def updateParameters (s : SimState) : SimState :=
  updateBiologicalState
    (updateDerivedRates { s with simulationTime := s.simulationTime + 1/60 })
    (1/60)

/-- update (lines 277-293).  The method is declared with no parameter, so
the elapsed-time argument that src/main.js line 273 passes as
simulation.update(scaledDelta) is silently discarded; it appears here as an
ignored argument to mirror the call site.  The body runs updateParameters
then checkStageTransitions; the remaining calls (updateVisualization,
updateProgressBar, updateUI) never mutate engine state and are skipped
anyway when checkStageTransitions throws. -/
def update (s : SimState) (dt : ℚ) : SimState × Bool :=
  let _ := dt
  checkStageTransitions (updateParameters s)

/-- advanceToNextStage (lines 221-275): one manual step along the forward
path, force-setting the qualifying level of the destination stage. -/
def advanceToNextStage (s : SimState) : SimState :=
  if s.simulationStage = "incubation" then
    { s with simulationStage := "comedone", currentSebumLevel := SEBUM_THRESHOLD }
  else if s.simulationStage = "comedone" then
    { s with simulationStage := "papule"
             currentInflammationLevel := INFLAMMATION_THRESHOLD
             currentBacteriaLevel := max s.currentBacteriaLevel (BACTERIA_THRESHOLD + 5) }
  else if s.simulationStage = "papule" then
    { s with simulationStage := "pustule", currentPusLevel := PUS_THRESHOLD }
  else if s.simulationStage = "pustule" then
    { s with simulationStage := "rupture"
             currentPusLevel := RUPTURE_THRESHOLD
             healingProgress := 0 }
  else if s.simulationStage = "rupture" then
    { s with simulationStage := "healing", healingProgress := HEALING_THRESHOLD }
  else if s.simulationStage = "healing" then
    { s with simulationStage := "resolved"
             healingProgress := RESOLVED_THRESHOLD
             currentInflammationLevel := 0
             currentPusLevel := 0 }
  else if s.simulationStage = "resolved" then
    { s with simulationStage := "incubation"
             currentSebumLevel := 20
             currentBacteriaLevel := 0
             currentInflammationLevel := 0
             currentNeutrophilLevel := 0
             currentPusLevel := 0
             healingProgress := 0 }
  else s

/-- The valid stage names accepted by setStage (lines 300-303). -/
def validStages : List String :=
  ["incubation", "comedone", "papule", "pustule",
   "rupture", "healing", "worsening", "resolved"]

/-- resetStageProgress (lines 337-369): seed the levels governing the
current stage to a fraction of their thresholds. -/
def resetStageProgress (s : SimState) : SimState :=
  if s.simulationStage = "incubation" then
    { s with currentBacteriaLevel := 0, currentInflammationLevel := 0 }
  else if s.simulationStage = "comedone" then
    { s with currentBacteriaLevel := BACTERIA_THRESHOLD * 0.8
             currentInflammationLevel := INFLAMMATION_THRESHOLD * 0.8 }
  else if s.simulationStage = "papule" then
    { s with currentInflammationLevel := INFLAMMATION_THRESHOLD * 0.8
             currentPusLevel := 0 }
  else if s.simulationStage = "pustule" then
    { s with currentPusLevel := PUS_THRESHOLD * 0.8 }
  else if s.simulationStage = "rupture" then
    { s with currentPusLevel := RUPTURE_THRESHOLD * 0.8, healingProgress := 0 }
  else if s.simulationStage = "healing" then
    { s with healingProgress := HEALING_THRESHOLD * 0.8 }
  else if s.simulationStage = "worsening" then
    { s with currentBacteriaLevel := BACTERIA_THRESHOLD * 0.8
             currentInflammationLevel := INFLAMMATION_THRESHOLD * 0.8 }
  else if s.simulationStage = "resolved" then
    { s with healingProgress := 100 }
  else s

/-- setStage (lines 296-334): an unrecognized name is logged via
console.error and the method returns with the state untouched; a valid name
is assigned and resetStageProgress reseeds the levels.  The subsequent
visualization and DOM updates read engine state only. -/
def setStage (s : SimState) (stage : String) : SimState :=
  if ¬ validStages.contains stage then s
  else resetStageProgress { s with simulationStage := stage }

/-- setProgressionAccelerator (lines 215-218): clamp to the range 0.1 to
10.0 and store. -/
def setProgressionAccelerator (s : SimState) (value : ℚ) : SimState :=
  { s with progressionAccelerator := max 0.1 (min 10.0 value) }

/-- Modelled from the spec: the engine method reset(), which is missing from
src/simulation.js even though src/main.js line 250 invokes simulation.reset().
Spec section 4.4 states that reset restores all BiologicalLevels and the
Stage to construction-time initial values and leaves the ControlParameters
untouched; spec section 3 groups simulationTime with the BiologicalLevels,
so it returns to 0 as well. -/
def reset (s : SimState) : SimState :=
  { s with
    simulationTime := 0
    simulationStage := "incubation"
    currentSebumLevel := 20
    currentBacteriaLevel := 0
    currentInflammationLevel := 0
    currentNeutrophilLevel := 0
    currentPusLevel := 0
    currentMedicationLevel := 0
    healingProgress := 0 }

/-- Modelled from the spec: the clamp every parameter setter applies.  Spec
section 4.1 says setParam clamps its value to the range 0 to 1000 before
storing it. -/
def clampParam (value : ℚ) : ℚ := max 0 (min 1000 value)

/-- Modelled from the spec: setSebumParam, one of the eight parameter
setters named in src/main.js lines 183-204 but missing from
src/simulation.js.  Spec sections 4.1 and 6 give each setter the same
contract: clamp the value to 0 to 1000, store it, no other side effect. -/
def setSebumParam (s : SimState) (value : ℚ) : SimState :=
  { s with sebumValue := clampParam value }

/-- Modelled from the spec: setBacteriaParam, missing from
src/simulation.js; same contract as the other setters. -/
def setBacteriaParam (s : SimState) (value : ℚ) : SimState :=
  { s with bacteriaValue := clampParam value }

/-- Modelled from the spec: setMedicationParam, missing from
src/simulation.js; same contract as the other setters. -/
def setMedicationParam (s : SimState) (value : ℚ) : SimState :=
  { s with medicationValue := clampParam value }

/-- Modelled from the spec: setInflammationParam, missing from
src/simulation.js; same contract as the other setters. -/
def setInflammationParam (s : SimState) (value : ℚ) : SimState :=
  { s with inflammationValue := clampParam value }

/-- Modelled from the spec: setHealingParam, missing from
src/simulation.js; same contract as the other setters. -/
def setHealingParam (s : SimState) (value : ℚ) : SimState :=
  { s with healingValue := clampParam value }

/-- Modelled from the spec: setTemperatureParam, missing from
src/simulation.js; same contract as the other setters. -/
def setTemperatureParam (s : SimState) (value : ℚ) : SimState :=
  { s with temperatureValue := clampParam value }

/-- Modelled from the spec: setHumidityParam, missing from
src/simulation.js; same contract as the other setters. -/
def setHumidityParam (s : SimState) (value : ℚ) : SimState :=
  { s with humidityValue := clampParam value }

/-- Modelled from the spec: setFrictionParam, missing from
src/simulation.js; same contract as the other setters. -/
def setFrictionParam (s : SimState) (value : ℚ) : SimState :=
  { s with frictionValue := clampParam value }

/-- The documented range of the six biological levels and of the healing
progress: each lies between 0 and 100. -/
abbrev InRange (s : SimState) : Prop :=
  0 ≤ s.currentSebumLevel ∧ s.currentSebumLevel ≤ 100 ∧
  0 ≤ s.currentBacteriaLevel ∧ s.currentBacteriaLevel ≤ 100 ∧
  0 ≤ s.currentInflammationLevel ∧ s.currentInflammationLevel ≤ 100 ∧
  0 ≤ s.currentNeutrophilLevel ∧ s.currentNeutrophilLevel ≤ 100 ∧
  0 ≤ s.currentPusLevel ∧ s.currentPusLevel ≤ 100 ∧
  0 ≤ s.healingProgress ∧ s.healingProgress ≤ 100

/-- The documented range of the eight control parameters: each lies between
0 and 1000. -/
abbrev ParamsInRange (s : SimState) : Prop :=
  0 ≤ s.sebumValue ∧ s.sebumValue ≤ 1000 ∧
  0 ≤ s.bacteriaValue ∧ s.bacteriaValue ≤ 1000 ∧
  0 ≤ s.medicationValue ∧ s.medicationValue ≤ 1000 ∧
  0 ≤ s.inflammationValue ∧ s.inflammationValue ≤ 1000 ∧
  0 ≤ s.healingValue ∧ s.healingValue ≤ 1000 ∧
  0 ≤ s.temperatureValue ∧ s.temperatureValue ≤ 1000 ∧
  0 ≤ s.humidityValue ∧ s.humidityValue ≤ 1000 ∧
  0 ≤ s.frictionValue ∧ s.frictionValue ≤ 1000

/-- A state inside all documented ranges: the medication level sits at the
top of its documented 0 to 100 range while the medication slider sits at its
maximum of 1000.  One tick pushes the medication level to 109. -/
def medOverflowState : SimState :=
  { initialState with currentMedicationLevel := 100, medicationValue := 1000 }

/-- A state one tick away from the automatic incubation to comedone
transition: bacteria 61 and inflammation 41 already exceed the thresholds
60 and 40, every parameter holds its default value. -/
def transitionTickState : SimState :=
  { initialState with currentBacteriaLevel := 61, currentInflammationLevel := 41 }

/-- Proof gadget for the humidity and friction noninterference claim: a
state overridden in exactly the four fields that depend on the humidity and
friction sliders, namely the two slider values themselves and the two
derived quantities recomputed from them each tick. -/
def setClimate (s : SimState) (h f b e : ℚ) : SimState :=
  { s with humidityValue := h, frictionValue := f
           baselineInflammation := b, humidityEffect := e }

end DermaSim

namespace DermaSim

/-- C2: after any state whatsoever, reset restores every biological level
to its construction-time initial value (sebum 20, bacteria 0, inflammation
0, neutrophils 0, pus 0, medication 0, healing progress 0), sets the stage
to incubation, and leaves all eight control parameters unchanged. -/
theorem reset_restores_initial_state (s : SimState) :
    (reset s).currentSebumLevel = 20 ∧
    (reset s).currentBacteriaLevel = 0 ∧
    (reset s).currentInflammationLevel = 0 ∧
    (reset s).currentNeutrophilLevel = 0 ∧
    (reset s).currentPusLevel = 0 ∧
    (reset s).currentMedicationLevel = 0 ∧
    (reset s).healingProgress = 0 ∧
    (reset s).simulationStage = "incubation" ∧
    (reset s).sebumValue = s.sebumValue ∧
    (reset s).bacteriaValue = s.bacteriaValue ∧
    (reset s).medicationValue = s.medicationValue ∧
    (reset s).inflammationValue = s.inflammationValue ∧
    (reset s).healingValue = s.healingValue ∧
    (reset s).temperatureValue = s.temperatureValue ∧
    (reset s).humidityValue = s.humidityValue ∧
    (reset s).frictionValue = s.frictionValue :=
  ⟨rfl, rfl, rfl, rfl, rfl, rfl, rfl, rfl, rfl, rfl, rfl, rfl, rfl, rfl, rfl, rfl⟩

/-- C4: each of the eight parameter setters stores the clamp of its input
into its own parameter field with no other change to the state, and the
clamped value always lies between 0 and 1000. -/
theorem setters_clamp_and_store (s : SimState) (v : ℚ) :
    setSebumParam s v = { s with sebumValue := clampParam v } ∧
    setBacteriaParam s v = { s with bacteriaValue := clampParam v } ∧
    setMedicationParam s v = { s with medicationValue := clampParam v } ∧
    setInflammationParam s v = { s with inflammationValue := clampParam v } ∧
    setHealingParam s v = { s with healingValue := clampParam v } ∧
    setTemperatureParam s v = { s with temperatureValue := clampParam v } ∧
    setHumidityParam s v = { s with humidityValue := clampParam v } ∧
    setFrictionParam s v = { s with frictionValue := clampParam v } ∧
    0 ≤ clampParam v ∧ clampParam v ≤ 1000 :=
  ⟨rfl, rfl, rfl, rfl, rfl, rfl, rfl, rfl, le_max_left 0 _,
    max_le (by norm_num) (min_le_left 1000 v)⟩

/-- C5: setStage with any name outside the eight valid stages returns the
state bit for bit unchanged, while a valid name is assigned and the levels
are reseeded through resetStageProgress; the reseeded values are fixed
constants determined by the destination stage alone. -/
theorem setStage_validation (s : SimState) (name : String) :
    (setStage s name =
      if validStages.contains name then
        resetStageProgress { s with simulationStage := name }
      else s) ∧
    (setStage s "comedone").currentBacteriaLevel = 48 ∧
    (setStage s "comedone").currentInflammationLevel = 32 ∧
    (setStage s "papule").currentInflammationLevel = 32 ∧
    (setStage s "papule").currentPusLevel = 0 ∧
    (setStage s "pustule").currentPusLevel = 56 ∧
    (setStage s "rupture").currentPusLevel = 72 ∧
    (setStage s "rupture").healingProgress = 0 ∧
    (setStage s "healing").healingProgress = 24 ∧
    (setStage s "worsening").currentBacteriaLevel = 48 ∧
    (setStage s "worsening").currentInflammationLevel = 32 ∧
    (setStage s "resolved").healingProgress = 100 ∧
    (setStage s "incubation").currentBacteriaLevel = 0 ∧
    (setStage s "incubation").currentInflammationLevel = 0 := by
  refine ⟨?_, ?_, ?_, ?_, ?_, ?_, ?_, ?_, ?_, ?_, ?_, ?_, ?_, ?_⟩
  · by_cases hc : validStages.contains name <;> simp [setStage, hc]
  all_goals
    simp [setStage, validStages, resetStageProgress, BACTERIA_THRESHOLD,
      INFLAMMATION_THRESHOLD, PUS_THRESHOLD, RUPTURE_THRESHOLD, HEALING_THRESHOLD]
  all_goals norm_num

/-- C7: from the rupture stage the post-integration transition check moves
to healing when healingProgress exceeds HEALING_THRESHOLD, otherwise to
worsening when bacteria or inflammation exceeds BACTERIA_THRESHOLD (the
inflammation comparison deliberately uses the bacteria threshold constant,
not INFLAMMATION_THRESHOLD), and otherwise stays in rupture. -/
theorem rupture_branch_uses_bacteria_threshold (s : SimState) :
    (checkStageTransitions { s with simulationStage := "rupture" }).1.simulationStage =
      (if s.healingProgress > HEALING_THRESHOLD then "healing"
       else if s.currentBacteriaLevel > BACTERIA_THRESHOLD ∨
           s.currentInflammationLevel > BACTERIA_THRESHOLD then "worsening"
       else "rupture") := by
  simp only [checkStageTransitions]
  norm_num
  split_ifs <;> simp_all

-- Frame lemmas: which fields each integration block leaves untouched.

theorem stepSebum_simulationStage (s : SimState) (dt : ℚ) :
    (stepSebum s dt).simulationStage = s.simulationStage := rfl

theorem stepBacteria_simulationStage (s : SimState) (dt : ℚ) :
    (stepBacteria s dt).simulationStage = s.simulationStage := by
  unfold stepBacteria; split <;> rfl

theorem stepInflammation_simulationStage (s : SimState) (dt : ℚ) :
    (stepInflammation s dt).simulationStage = s.simulationStage := by
  unfold stepInflammation; split <;> rfl

theorem stepPus_simulationStage (s : SimState) (dt : ℚ) :
    (stepPus s dt).simulationStage = s.simulationStage := by
  unfold stepPus; split <;> rfl

theorem stepSebum_medication (s : SimState) (dt : ℚ) :
    (stepSebum s dt).currentMedicationLevel = s.currentMedicationLevel := rfl

theorem stepBacteria_medication (s : SimState) (dt : ℚ) :
    (stepBacteria s dt).currentMedicationLevel = s.currentMedicationLevel := by
  unfold stepBacteria; split <;> rfl

theorem stepInflammation_medication (s : SimState) (dt : ℚ) :
    (stepInflammation s dt).currentMedicationLevel = s.currentMedicationLevel := by
  unfold stepInflammation; split <;> rfl

theorem stepPus_medication (s : SimState) (dt : ℚ) :
    (stepPus s dt).currentMedicationLevel = s.currentMedicationLevel := by
  unfold stepPus; split <;> rfl

theorem stepHealing_medication (s : SimState) (dt : ℚ) :
    (stepHealing s dt).currentMedicationLevel = s.currentMedicationLevel := by
  unfold stepHealing; split <;> rfl

theorem updateBiologicalState_medication (s : SimState) (dt : ℚ) :
    (updateBiologicalState s dt).currentMedicationLevel = s.currentMedicationLevel := by
  unfold updateBiologicalState
  rw [stepHealing_medication, stepPus_medication, stepInflammation_medication,
    stepBacteria_medication, stepSebum_medication]

theorem stepSebum_simulationTime (s : SimState) (dt : ℚ) :
    (stepSebum s dt).simulationTime = s.simulationTime := rfl

theorem stepBacteria_simulationTime (s : SimState) (dt : ℚ) :
    (stepBacteria s dt).simulationTime = s.simulationTime := by
  unfold stepBacteria; split <;> rfl

theorem stepInflammation_simulationTime (s : SimState) (dt : ℚ) :
    (stepInflammation s dt).simulationTime = s.simulationTime := by
  unfold stepInflammation; split <;> rfl

theorem stepPus_simulationTime (s : SimState) (dt : ℚ) :
    (stepPus s dt).simulationTime = s.simulationTime := by
  unfold stepPus; split <;> rfl

theorem stepHealing_simulationTime (s : SimState) (dt : ℚ) :
    (stepHealing s dt).simulationTime = s.simulationTime := by
  unfold stepHealing; split <;> rfl

theorem updateBiologicalState_simulationTime (s : SimState) (dt : ℚ) :
    (updateBiologicalState s dt).simulationTime = s.simulationTime := by
  unfold updateBiologicalState
  rw [stepHealing_simulationTime, stepPus_simulationTime, stepInflammation_simulationTime,
    stepBacteria_simulationTime, stepSebum_simulationTime]

theorem checkStageTransitions_preserves (s : SimState) :
    (checkStageTransitions s).1.simulationTime = s.simulationTime ∧
    (checkStageTransitions s).1.currentSebumLevel = s.currentSebumLevel ∧
    (checkStageTransitions s).1.currentBacteriaLevel = s.currentBacteriaLevel ∧
    (checkStageTransitions s).1.currentInflammationLevel = s.currentInflammationLevel ∧
    (checkStageTransitions s).1.currentNeutrophilLevel = s.currentNeutrophilLevel ∧
    (checkStageTransitions s).1.currentPusLevel = s.currentPusLevel ∧
    (checkStageTransitions s).1.currentMedicationLevel = s.currentMedicationLevel ∧
    (checkStageTransitions s).1.healingProgress = s.healingProgress := by
  unfold checkStageTransitions
  split_ifs <;> exact ⟨rfl, rfl, rfl, rfl, rfl, rfl, rfl, rfl⟩

/-- The stage projection of the four blocks that never write it. -/
theorem stepChain_simulationStage (s : SimState) (dt : ℚ) :
    (stepPus (stepInflammation (stepBacteria (stepSebum s dt) dt) dt) dt).simulationStage =
      s.simulationStage := by
  rw [stepPus_simulationStage, stepInflammation_simulationStage,
    stepBacteria_simulationStage, stepSebum_simulationStage]

theorem stepSebum_bacteria (s : SimState) (dt : ℚ) :
    (stepSebum s dt).currentBacteriaLevel = s.currentBacteriaLevel := rfl

theorem stepInflammation_bacteria (s : SimState) (dt : ℚ) :
    (stepInflammation s dt).currentBacteriaLevel = s.currentBacteriaLevel := by
  unfold stepInflammation; split <;> rfl

theorem stepPus_bacteria (s : SimState) (dt : ℚ) :
    (stepPus s dt).currentBacteriaLevel = s.currentBacteriaLevel := by
  unfold stepPus; split <;> rfl

theorem stepHealing_bacteria (s : SimState) (dt : ℚ) :
    (stepHealing s dt).currentBacteriaLevel = s.currentBacteriaLevel := by
  unfold stepHealing; split <;> rfl

theorem stepBacteria_inflammationValue (s : SimState) (dt : ℚ) :
    (stepBacteria s dt).inflammationValue = s.inflammationValue := by
  unfold stepBacteria; split <;> rfl

theorem stepBacteria_progressionAccelerator (s : SimState) (dt : ℚ) :
    (stepBacteria s dt).progressionAccelerator = s.progressionAccelerator := by
  unfold stepBacteria; split <;> rfl

theorem stepBacteria_healingValue (s : SimState) (dt : ℚ) :
    (stepBacteria s dt).healingValue = s.healingValue := by
  unfold stepBacteria; split <;> rfl

theorem stepInflammation_progressionAccelerator (s : SimState) (dt : ℚ) :
    (stepInflammation s dt).progressionAccelerator = s.progressionAccelerator := by
  unfold stepInflammation; split <;> rfl

theorem stepInflammation_healingValue (s : SimState) (dt : ℚ) :
    (stepInflammation s dt).healingValue = s.healingValue := by
  unfold stepInflammation; split <;> rfl

theorem stepPus_healingValue (s : SimState) (dt : ℚ) :
    (stepPus s dt).healingValue = s.healingValue := by
  unfold stepPus; split <;> rfl

/-- With the stage still at incubation the bacteria block is skipped. -/
theorem stepBacteria_incubation (s : SimState) (dt : ℚ)
    (h : s.simulationStage = "incubation") : stepBacteria s dt = s := by
  unfold stepBacteria; simp [h]

/-- Outside the papule and pustule stages, or with few neutrophils, the pus
block is skipped. -/
theorem stepPus_noop (s : SimState) (dt : ℚ)
    (h1 : s.simulationStage ≠ "papule") (h2 : s.simulationStage ≠ "pustule") :
    stepPus s dt = s := by
  unfold stepPus; simp [h1, h2]

/-- Outside the healing and resolved stages the healing block is skipped. -/
theorem stepHealing_noop (s : SimState) (dt : ℚ)
    (h1 : s.simulationStage ≠ "healing") (h2 : s.simulationStage ≠ "resolved") :
    stepHealing s dt = s := by
  unfold stepHealing; simp [h1, h2]

/-- Value of the inflammation level when the inflammation block fires. -/
theorem stepInflammation_value (s : SimState) (dt : ℚ)
    (h : s.currentBacteriaLevel > BACTERIA_THRESHOLD ∨
      (s.simulationStage = "comedone" ∨ s.simulationStage = "papule")) :
    (stepInflammation s dt).currentInflammationLevel =
      min 100 (s.currentInflammationLevel +
        (max s.currentBacteriaLevel 30 - 30) / 40 *
          (s.inflammationValue / 500) * dt * s.progressionAccelerator) := by
  unfold stepInflammation
  rw [if_pos h]

/-- On an incubation-stage state, the integration step reduces to the sebum
and inflammation blocks. -/
theorem updateBiologicalState_incubation (s : SimState) (dt : ℚ)
    (h : s.simulationStage = "incubation") :
    updateBiologicalState s dt = stepInflammation (stepSebum s dt) dt := by
  have hA : (stepSebum s dt).simulationStage = "incubation" := by
    rw [stepSebum_simulationStage]; exact h
  have hC : (stepInflammation (stepSebum s dt) dt).simulationStage = "incubation" := by
    rw [stepInflammation_simulationStage]; exact hA
  unfold updateBiologicalState
  rw [stepBacteria_incubation _ _ hA,
    stepPus_noop _ _ (by rw [hC]; decide) (by rw [hC]; decide),
    stepHealing_noop _ _ (by rw [hC]; decide) (by rw [hC]; decide)]

/-- The healing block either keeps the stage or promotes a healing stage
to resolved; no other stage write exists in it. -/
theorem stepHealing_simulationStage (s : SimState) (dt : ℚ) :
    (stepHealing s dt).simulationStage = s.simulationStage ∨
      (s.simulationStage = "healing" ∧ (stepHealing s dt).simulationStage = "resolved") := by
  unfold stepHealing
  split_ifs with h1
  · dsimp only
    split_ifs with h2
    · exact Or.inr ⟨h2.1, rfl⟩
    · exact Or.inl rfl
  · exact Or.inl rfl

/-- The integration step changes the stage only by promoting healing to
resolved. -/
theorem updateBiologicalState_stage (s : SimState) (dt : ℚ) :
    (updateBiologicalState s dt).simulationStage = s.simulationStage ∨
      (s.simulationStage = "healing" ∧
        (updateBiologicalState s dt).simulationStage = "resolved") := by
  have h := stepHealing_simulationStage
    (stepPus (stepInflammation (stepBacteria (stepSebum s dt) dt) dt) dt) dt
  rw [stepChain_simulationStage s dt] at h
  exact h

/-- C8: a healing-stage state is promoted to resolved by the integration
step exactly when the freshly decayed inflammation and pus land below 10
and 5; on every other stage the integration step leaves the stage
unchanged, so this promotion is the only stage change a level update can
make; and, separately, the stage machine moves healing to resolved exactly
when healingProgress has reached RESOLVED_THRESHOLD. -/
theorem healing_promotion_inside_integration (s : SimState) (dt : ℚ) :
    ((updateBiologicalState { s with simulationStage := "healing" } dt).simulationStage =
      if (updateBiologicalState { s with simulationStage := "healing" } dt).currentInflammationLevel < 10 ∧
          (updateBiologicalState { s with simulationStage := "healing" } dt).currentPusLevel < 5 then
        "resolved"
      else "healing") ∧
    ((updateBiologicalState s dt).simulationStage = s.simulationStage ∨
      (s.simulationStage = "healing" ∧
        (updateBiologicalState s dt).simulationStage = "resolved")) ∧
    ((checkStageTransitions { s with simulationStage := "healing" }).1.simulationStage =
      if s.healingProgress ≥ RESOLVED_THRESHOLD then "resolved" else "healing") := by
  refine ⟨?_, ?_, ?_⟩
  · have hY := stepChain_simulationStage { s with simulationStage := "healing" } dt
    unfold updateBiologicalState stepHealing
    simp only [hY]
    simp
  · exact updateBiologicalState_stage s dt
  · simp only [checkStageTransitions]
    simp
    split_ifs <;> rfl

-- Arithmetic helpers for the clamped update patterns of the source.

theorem clampAdd_mem (x y : ℚ) (hx : 0 ≤ x) (hy : 0 ≤ y) :
    0 ≤ min 100 (x + y) ∧ min 100 (x + y) ≤ 100 :=
  ⟨le_min (by norm_num) (by linarith), min_le_left _ _⟩

theorem clampSub_mem (x y : ℚ) (hx : x ≤ 100) (hy : 0 ≤ y) :
    0 ≤ max 0 (x - y) ∧ max 0 (x - y) ≤ 100 :=
  ⟨le_max_left _ _, max_le (by norm_num) (by linarith)⟩

/-- The derived rates recomputed each tick are nonnegative whenever the
temperature and medication sliders sit inside 0 to 1000 and the accelerator
is nonnegative, and the low-pass filtered medication level stays inside
0 to 1000. -/
theorem updateDerivedRates_bounds (s : SimState)
    (hT0 : 0 ≤ s.temperatureValue) (hT1 : s.temperatureValue ≤ 1000)
    (hM0 : 0 ≤ s.medicationValue) (hM1 : s.medicationValue ≤ 1000)
    (hA : 0 ≤ s.progressionAccelerator)
    (hm0 : 0 ≤ s.currentMedicationLevel) (hm1 : s.currentMedicationLevel ≤ 1000) :
    0 ≤ (updateDerivedRates s).sebumRate ∧
    0 ≤ (updateDerivedRates s).bacteriaGrowthRate ∧
    0 ≤ (updateDerivedRates s).currentMedicationLevel ∧
    (updateDerivedRates s).currentMedicationLevel ≤ 1000 := by
  unfold updateDerivedRates
  refine ⟨?_, ?_, ?_, ?_⟩
  · dsimp only
    have h1 : (0:ℚ) ≤ 1 + 0.002 * (s.temperatureValue - 500) := by linarith
    exact mul_nonneg (mul_nonneg (by norm_num) h1) hA
  · dsimp only
    have h1 : (0:ℚ) ≤ 1 + 0.001 * (s.temperatureValue - 500) := by linarith
    have h2 : (0:ℚ) ≤ 1 - s.medicationValue / 2000 := by linarith
    exact mul_nonneg (mul_nonneg (mul_nonneg (by norm_num) h1) h2) hA
  · dsimp only; linarith
  · dsimp only; linarith

theorem stepSebum_inrange (s : SimState) (dt : ℚ) (hdt : 0 ≤ dt)
    (hr : 0 ≤ s.sebumRate) (hv : 0 ≤ s.sebumValue)
    (h : InRange s) : InRange (stepSebum s dt) := by
  obtain ⟨a0, a1, b0, b1, c0, c1, d0, d1, e0, e1, f0, f1⟩ := h
  have hinc : 0 ≤ s.sebumRate * (s.sebumValue / 500) * dt :=
    mul_nonneg (mul_nonneg hr (div_nonneg hv (by norm_num))) hdt
  unfold stepSebum
  have hmem := clampAdd_mem s.currentSebumLevel _ a0 hinc
  exact ⟨hmem.1, hmem.2, b0, b1, c0, c1, d0, d1, e0, e1, f0, f1⟩

theorem stepBacteria_inrange (s : SimState) (dt : ℚ) (hdt : 0 ≤ dt)
    (hr : 0 ≤ s.bacteriaGrowthRate) (hv : 0 ≤ s.bacteriaValue)
    (h : InRange s) : InRange (stepBacteria s dt) := by
  obtain ⟨a0, a1, b0, b1, c0, c1, d0, d1, e0, e1, f0, f1⟩ := h
  unfold stepBacteria
  split_ifs with h1 h2 h3 h4
  all_goals refine ⟨a0, a1, ?_, ?_, c0, c1, d0, d1, e0, e1, f0, f1⟩ <;> dsimp only
  · exact (clampSub_mem _ _ (min_le_left _ _)
      (mul_nonneg (div_nonneg (le_of_lt h3) (by norm_num)) hdt)).1
  · exact (clampSub_mem _ _ (min_le_left _ _)
      (mul_nonneg (div_nonneg (le_of_lt h3) (by norm_num)) hdt)).2
  · exact (clampAdd_mem _ _ b0 (mul_nonneg (mul_nonneg b0 hr) hdt)).1
  · exact (clampAdd_mem _ _ b0 (mul_nonneg (mul_nonneg b0 hr) hdt)).2
  · exact (clampSub_mem _ _ (min_le_left _ _)
      (mul_nonneg (div_nonneg (le_of_lt h4) (by norm_num)) hdt)).1
  · exact (clampSub_mem _ _ (min_le_left _ _)
      (mul_nonneg (div_nonneg (le_of_lt h4) (by norm_num)) hdt)).2
  · exact (clampAdd_mem _ _ b0
      (mul_nonneg (mul_nonneg (div_nonneg hv (by norm_num)) hdt) (by norm_num))).1
  · exact (clampAdd_mem _ _ b0
      (mul_nonneg (mul_nonneg (div_nonneg hv (by norm_num)) hdt) (by norm_num))).2
  · exact b0
  · exact b1

theorem stepInflammation_inrange (s : SimState) (dt : ℚ) (hdt : 0 ≤ dt)
    (hv : 0 ≤ s.inflammationValue) (hacc : 0 ≤ s.progressionAccelerator)
    (h : InRange s) : InRange (stepInflammation s dt) := by
  obtain ⟨a0, a1, b0, b1, c0, c1, d0, d1, e0, e1, f0, f1⟩ := h
  have hrate : 0 ≤ (max s.currentBacteriaLevel 30 - 30) / 40 *
      (s.inflammationValue / 500) * dt * s.progressionAccelerator := by
    have h30 : (0:ℚ) ≤ max s.currentBacteriaLevel 30 - 30 := by
      have := le_max_right s.currentBacteriaLevel (30:ℚ)
      linarith
    exact mul_nonneg (mul_nonneg (mul_nonneg (div_nonneg h30 (by norm_num))
      (div_nonneg hv (by norm_num))) hdt) hacc
  unfold stepInflammation
  dsimp only
  split_ifs with h1 h2
  · exact ⟨a0, a1, b0, b1, (clampAdd_mem _ _ c0 hrate).1, (clampAdd_mem _ _ c0 hrate).2,
      (clampAdd_mem _ _ d0 (by linarith)).1, (clampAdd_mem _ _ d0 (by linarith)).2,
      e0, e1, f0, f1⟩
  · exact ⟨a0, a1, b0, b1, (clampAdd_mem _ _ c0 hrate).1, (clampAdd_mem _ _ c0 hrate).2,
      d0, d1, e0, e1, f0, f1⟩
  · exact ⟨a0, a1, b0, b1, c0, c1, d0, d1, e0, e1, f0, f1⟩

theorem stepPus_inrange (s : SimState) (dt : ℚ) (hdt : 0 ≤ dt)
    (hacc : 0 ≤ s.progressionAccelerator)
    (h : InRange s) : InRange (stepPus s dt) := by
  obtain ⟨a0, a1, b0, b1, c0, c1, d0, d1, e0, e1, f0, f1⟩ := h
  unfold stepPus
  split_ifs with h1
  · have hinc : 0 ≤ s.currentNeutrophilLevel / 80 * dt * s.progressionAccelerator :=
      mul_nonneg (mul_nonneg (div_nonneg d0 (by norm_num)) hdt) hacc
    exact ⟨a0, a1, b0, b1, c0, c1, d0, d1,
      (clampAdd_mem _ _ e0 hinc).1, (clampAdd_mem _ _ e0 hinc).2, f0, f1⟩
  · exact ⟨a0, a1, b0, b1, c0, c1, d0, d1, e0, e1, f0, f1⟩

theorem stepHealing_inrange (s : SimState) (dt : ℚ) (hdt : 0 ≤ dt)
    (hv : 0 ≤ s.healingValue)
    (h : InRange s) : InRange (stepHealing s dt) := by
  obtain ⟨a0, a1, b0, b1, c0, c1, d0, d1, e0, e1, f0, f1⟩ := h
  have hrate : 0 ≤ s.healingValue / 500 * dt :=
    mul_nonneg (div_nonneg hv (by norm_num)) hdt
  unfold stepHealing
  split_ifs with h1
  · refine ⟨a0, a1, b0, b1,
      (clampSub_mem _ _ c1 hrate).1, (clampSub_mem _ _ c1 hrate).2,
      (clampSub_mem _ _ d1 (by linarith)).1, (clampSub_mem _ _ d1 (by linarith)).2,
      (clampSub_mem _ _ e1 (by linarith)).1, (clampSub_mem _ _ e1 (by linarith)).2,
      ?_, ?_⟩
    · dsimp only
      exact le_min (by linarith) (by norm_num)
    · dsimp only
      exact min_le_right _ _
  · exact ⟨a0, a1, b0, b1, c0, c1, d0, d1, e0, e1, f0, f1⟩

/-- The full integration step preserves the documented level ranges when
the stored rates, the relevant sliders and the accelerator are nonnegative
and the timestep is nonnegative. -/
theorem updateBiologicalState_inrange (s : SimState) (dt : ℚ) (hdt : 0 ≤ dt)
    (hsr : 0 ≤ s.sebumRate) (hbr : 0 ≤ s.bacteriaGrowthRate)
    (hsv : 0 ≤ s.sebumValue) (hbv : 0 ≤ s.bacteriaValue)
    (hiv : 0 ≤ s.inflammationValue) (hhv : 0 ≤ s.healingValue)
    (hacc : 0 ≤ s.progressionAccelerator)
    (h : InRange s) : InRange (updateBiologicalState s dt) := by
  unfold updateBiologicalState
  have h1 : InRange (stepSebum s dt) := stepSebum_inrange s dt hdt hsr hsv h
  have h2 : InRange (stepBacteria (stepSebum s dt) dt) :=
    stepBacteria_inrange _ dt hdt hbr hbv h1
  have h3 : InRange (stepInflammation (stepBacteria (stepSebum s dt) dt) dt) := by
    refine stepInflammation_inrange _ dt hdt ?_ ?_ h2
    · rw [stepBacteria_inflammationValue]; exact hiv
    · rw [stepBacteria_progressionAccelerator]; exact hacc
  have h4 : InRange (stepPus (stepInflammation (stepBacteria (stepSebum s dt) dt) dt) dt) := by
    refine stepPus_inrange _ dt hdt ?_ h3
    rw [stepInflammation_progressionAccelerator, stepBacteria_progressionAccelerator]
    exact hacc
  refine stepHealing_inrange _ dt hdt ?_ h4
  rw [stepPus_healingValue, stepInflammation_healingValue, stepBacteria_healingValue]
  exact hhv

-- Commutation of every tick phase with an override of the humidity and
-- friction sliders and of the two derived quantities computed from them.

theorem updateDerivedRates_setClimate (s : SimState) (h f b e : ℚ) :
    updateDerivedRates (setClimate s h f b e) =
      setClimate (updateDerivedRates s) h f
        (if f > 300 then (f - 300) / 1400 else 0)
        (if h > 600 then 1 + (h - 600) / 800 else 1) := by
  simp only [updateDerivedRates, setClimate]

theorem stepSebum_setClimate (s : SimState) (dt h f b e : ℚ) :
    stepSebum (setClimate s h f b e) dt = setClimate (stepSebum s dt) h f b e := rfl

theorem stepBacteria_setClimate (s : SimState) (dt h f b e : ℚ) :
    stepBacteria (setClimate s h f b e) dt = setClimate (stepBacteria s dt) h f b e := by
  simp only [stepBacteria, setClimate]
  split_ifs <;> rfl

theorem stepInflammation_setClimate (s : SimState) (dt h f b e : ℚ) :
    stepInflammation (setClimate s h f b e) dt =
      setClimate (stepInflammation s dt) h f b e := by
  simp only [stepInflammation, setClimate]
  split_ifs <;> rfl

theorem stepPus_setClimate (s : SimState) (dt h f b e : ℚ) :
    stepPus (setClimate s h f b e) dt = setClimate (stepPus s dt) h f b e := by
  simp only [stepPus, setClimate]
  split_ifs <;> rfl

theorem stepHealing_setClimate (s : SimState) (dt h f b e : ℚ) :
    stepHealing (setClimate s h f b e) dt = setClimate (stepHealing s dt) h f b e := by
  simp only [stepHealing, setClimate]
  split_ifs <;> rfl

theorem updateBiologicalState_setClimate (s : SimState) (dt h f b e : ℚ) :
    updateBiologicalState (setClimate s h f b e) dt =
      setClimate (updateBiologicalState s dt) h f b e := by
  unfold updateBiologicalState
  rw [stepSebum_setClimate, stepBacteria_setClimate, stepInflammation_setClimate,
    stepPus_setClimate, stepHealing_setClimate]

theorem checkStageTransitions_setClimate (s : SimState) (h f b e : ℚ) :
    checkStageTransitions (setClimate s h f b e) =
      (setClimate (checkStageTransitions s).1 h f b e, (checkStageTransitions s).2) := by
  simp only [checkStageTransitions, setClimate]
  split_ifs <;> rfl

theorem update_setClimate (s : SimState) (dt h f b e : ℚ) :
    update (setClimate s h f b e) dt =
      (setClimate (update s dt).1 h f
        (if f > 300 then (f - 300) / 1400 else 0)
        (if h > 600 then 1 + (h - 600) / 800 else 1),
       (update s dt).2) := by
  show checkStageTransitions (updateParameters (setClimate s h f b e)) = _
  have h1 : updateParameters (setClimate s h f b e) =
      setClimate (updateParameters s) h f
        (if f > 300 then (f - 300) / 1400 else 0)
        (if h > 600 then 1 + (h - 600) / 800 else 1) := by
    unfold updateParameters
    have e0 : ({ setClimate s h f b e with
        simulationTime := (setClimate s h f b e).simulationTime + 1/60 }) =
        setClimate { s with simulationTime := s.simulationTime + 1/60 } h f b e := rfl
    rw [e0, updateDerivedRates_setClimate, updateBiologicalState_setClimate]
  rw [h1, checkStageTransitions_setClimate]
  rfl

set_option maxHeartbeats 1000000 in
/-- C10: two states identical except in the humidity and friction slider
values produce identical biological levels, healing progress, stage and
simulation time after one update, and the same thrown-or-not outcome: the
derived humidityEffect and baselineInflammation values are recomputed every
tick but never consumed by the integration or by the stage machine. -/
theorem humidity_friction_no_influence (s : SimState) (h f dt : ℚ) :
    (update { s with humidityValue := h, frictionValue := f } dt).1.currentSebumLevel =
      (update s dt).1.currentSebumLevel ∧
    (update { s with humidityValue := h, frictionValue := f } dt).1.currentBacteriaLevel =
      (update s dt).1.currentBacteriaLevel ∧
    (update { s with humidityValue := h, frictionValue := f } dt).1.currentInflammationLevel =
      (update s dt).1.currentInflammationLevel ∧
    (update { s with humidityValue := h, frictionValue := f } dt).1.currentNeutrophilLevel =
      (update s dt).1.currentNeutrophilLevel ∧
    (update { s with humidityValue := h, frictionValue := f } dt).1.currentPusLevel =
      (update s dt).1.currentPusLevel ∧
    (update { s with humidityValue := h, frictionValue := f } dt).1.currentMedicationLevel =
      (update s dt).1.currentMedicationLevel ∧
    (update { s with humidityValue := h, frictionValue := f } dt).1.healingProgress =
      (update s dt).1.healingProgress ∧
    (update { s with humidityValue := h, frictionValue := f } dt).1.simulationStage =
      (update s dt).1.simulationStage ∧
    (update { s with humidityValue := h, frictionValue := f } dt).1.simulationTime =
      (update s dt).1.simulationTime ∧
    (update { s with humidityValue := h, frictionValue := f } dt).2 = (update s dt).2 := by
  have h0 : ({ s with humidityValue := h, frictionValue := f } : SimState) =
      setClimate s h f s.baselineInflammation s.humidityEffect := rfl
  rw [h0, update_setClimate]
  exact ⟨rfl, rfl, rfl, rfl, rfl, rfl, rfl, rfl, rfl, rfl⟩

/-- C1 (amended): with every control parameter in 0 to 1000, the
accelerator in its documented 0.1 to 10 range, the six levels and the
healing progress in 0 to 100 and the medication level anywhere in 0 to
1000, one call to update keeps sebum, bacteria, inflammation, neutrophils,
pus and healingProgress inside 0 to 100; the medication level, which the
source never clamps to 100, stays inside 0 to 1000 instead, tracking the
medication slider. -/
theorem update_keeps_documented_ranges (s : SimState) (dt : ℚ)
    (hP : ParamsInRange s) (hL : InRange s)
    (hm0 : 0 ≤ s.currentMedicationLevel) (hm1 : s.currentMedicationLevel ≤ 1000)
    (ha0 : 0.1 ≤ s.progressionAccelerator) (ha1 : s.progressionAccelerator ≤ 10) :
    InRange (update s dt).1 ∧
    0 ≤ (update s dt).1.currentMedicationLevel ∧
    (update s dt).1.currentMedicationLevel ≤ 1000 := by
  obtain ⟨p1, p2, p3, p4, p5, p6, p7, p8, p9, p10, p11, p12, p13, p14, p15, p16⟩ := hP
  have hacc : (0:ℚ) ≤ s.progressionAccelerator := by linarith
  have hD := updateDerivedRates_bounds
    { s with simulationTime := s.simulationTime + 1/60 }
    p11 p12 p5 p6 hacc hm0 hm1
  have hDL : InRange (updateDerivedRates
      { s with simulationTime := s.simulationTime + 1/60 }) := hL
  have hBio : InRange (updateBiologicalState (updateDerivedRates
      { s with simulationTime := s.simulationTime + 1/60 }) (1/60)) := by
    refine updateBiologicalState_inrange _ _ (by norm_num)
      hD.1 hD.2.1 p1 p3 p7 p9 hacc hDL
  have hMed : (updateBiologicalState (updateDerivedRates
      { s with simulationTime := s.simulationTime + 1/60 }) (1/60)).currentMedicationLevel =
      (updateDerivedRates
        { s with simulationTime := s.simulationTime + 1/60 }).currentMedicationLevel :=
    updateBiologicalState_medication _ _
  have hpres := checkStageTransitions_preserves (updateParameters s)
  refine ⟨?_, ?_, ?_⟩
  · show InRange (checkStageTransitions (updateParameters s)).1
    obtain ⟨q1, q2, q3, q4, q5, q6, q7, q8⟩ := hpres
    obtain ⟨r1, r2, r3, r4, r5, r6, r7, r8, r9, r10, r11, r12⟩ := hBio
    exact ⟨by rw [q2]; exact r1, by rw [q2]; exact r2,
      by rw [q3]; exact r3, by rw [q3]; exact r4,
      by rw [q4]; exact r5, by rw [q4]; exact r6,
      by rw [q5]; exact r7, by rw [q5]; exact r8,
      by rw [q6]; exact r9, by rw [q6]; exact r10,
      by rw [q8]; exact r11, by rw [q8]; exact r12⟩
  · show 0 ≤ (checkStageTransitions (updateParameters s)).1.currentMedicationLevel
    rw [hpres.2.2.2.2.2.2.1]
    show 0 ≤ (updateBiologicalState (updateDerivedRates
      { s with simulationTime := s.simulationTime + 1/60 }) (1/60)).currentMedicationLevel
    rw [hMed]
    exact hD.2.2.1
  · show (checkStageTransitions (updateParameters s)).1.currentMedicationLevel ≤ 1000
    rw [hpres.2.2.2.2.2.2.1]
    show (updateBiologicalState (updateDerivedRates
      { s with simulationTime := s.simulationTime + 1/60 }) (1/60)).currentMedicationLevel ≤ 1000
    rw [hMed]
    exact hD.2.2.2

/-- C1 witness: the construction-time state satisfies every hypothesis of
the range theorem, and one update from it stays inside the ranges. -/
theorem update_keeps_documented_ranges_witness :
    ParamsInRange initialState ∧ InRange initialState ∧
    (0 ≤ initialState.currentMedicationLevel ∧
      initialState.currentMedicationLevel ≤ 1000) ∧
    (0.1 ≤ initialState.progressionAccelerator ∧
      initialState.progressionAccelerator ≤ 10) ∧
    InRange (update initialState 1).1 := by
  have h1 : ParamsInRange initialState := by norm_num [ParamsInRange, initialState]
  have h2 : InRange initialState := by norm_num [InRange, initialState]
  have h3 : 0 ≤ initialState.currentMedicationLevel ∧
      initialState.currentMedicationLevel ≤ 1000 := by norm_num [initialState]
  have h4 : 0.1 ≤ initialState.progressionAccelerator ∧
      initialState.progressionAccelerator ≤ 10 := by norm_num [initialState]
  exact ⟨h1, h2, h3, h4,
    (update_keeps_documented_ranges initialState 1 h1 h2 h3.1 h3.2 h4.1 h4.2).1⟩

/-- C1 counterexample: a state inside every documented range (medication
level 100, medication slider 1000) leaves the claimed 0 to 100 range in a
single update: the medication level reaches 109, because the source filters
it toward the 0 to 1000 slider value without ever clamping it to 100. -/
theorem medication_level_escapes_100 :
    InRange medOverflowState ∧ ParamsInRange medOverflowState ∧
    0 ≤ medOverflowState.currentMedicationLevel ∧
    medOverflowState.currentMedicationLevel ≤ 100 ∧
    (update medOverflowState (1/60)).1.currentMedicationLevel = 109 ∧
    ¬ (update medOverflowState (1/60)).1.currentMedicationLevel ≤ 100 := by
  have hval : (update medOverflowState (1/60)).1.currentMedicationLevel = 109 := by
    show (checkStageTransitions (updateParameters medOverflowState)).1.currentMedicationLevel = 109
    rw [(checkStageTransitions_preserves (updateParameters medOverflowState)).2.2.2.2.2.2.1]
    show (updateBiologicalState (updateDerivedRates
      { medOverflowState with
        simulationTime := medOverflowState.simulationTime + 1/60 }) (1/60)).currentMedicationLevel = 109
    rw [updateBiologicalState_medication]
    norm_num [updateDerivedRates, medOverflowState, initialState]
  refine ⟨?_, ?_, ?_, ?_, hval, ?_⟩
  · norm_num [InRange, medOverflowState, initialState]
  · norm_num [ParamsInRange, medOverflowState, initialState]
  · norm_num [medOverflowState, initialState]
  · norm_num [medOverflowState, initialState]
  · rw [hval]; norm_num

/-- C3 (amended): the update method declares no elapsed-time parameter, so
the argument the caller passes is discarded; every call advances
simulationTime by exactly the hard-coded 1/60 hour and integrates the
biological state with the fixed timestep 1/60, whatever the argument. -/
theorem update_uses_fixed_timestep (s : SimState) (dta dtb : ℚ) :
    update s dta = update s dtb ∧
    (update s dta).1.simulationTime = s.simulationTime + 1/60 := by
  refine ⟨rfl, ?_⟩
  show (checkStageTransitions (updateParameters s)).1.simulationTime = _
  rw [(checkStageTransitions_preserves (updateParameters s)).1]
  unfold updateParameters
  rw [updateBiologicalState_simulationTime]
  rfl

/-- C3 counterexample: calling update with the argument 1 advances
simulationTime to 1/60 hour, not to one hour, and the argument is entirely
ignored: the call with argument 2 yields the identical result. -/
theorem update_dt_argument_discarded :
    update initialState 1 = update initialState 2 ∧
    (update initialState 1).1.simulationTime = 1/60 ∧
    (update initialState 1).1.simulationTime ≠ initialState.simulationTime + 1 := by
  have ht : (update initialState 1).1.simulationTime =
      initialState.simulationTime + 1/60 := by
    show (checkStageTransitions (updateParameters initialState)).1.simulationTime = _
    rw [(checkStageTransitions_preserves (updateParameters initialState)).1]
    unfold updateParameters
    rw [updateBiologicalState_simulationTime]
    rfl
  refine ⟨rfl, ?_, ?_⟩
  · rw [ht]; norm_num [initialState]
  · rw [ht]; norm_num [initialState]

/-- C6 (refuted, code bug): from a live state with bacteria 61 and
inflammation 41 and every parameter at its in-range default, the very tick
that fires the automatic incubation to comedone transition raises a
TypeError, because checkStageTransitions assigns the new stage and then
invokes this.updateStageVisuals, a method AcneSimulation never defines;
the tick does not run to completion. -/
theorem transition_tick_raises_typeerror :
    (update transitionTickState (1/60)).2 = true ∧
    (update transitionTickState (1/60)).1.simulationStage = "comedone" := by
  have hu : updateParameters transitionTickState =
      stepInflammation
        (stepSebum (updateDerivedRates
          { transitionTickState with
            simulationTime := transitionTickState.simulationTime + 1/60 }) (1/60)) (1/60) := by
    unfold updateParameters
    exact updateBiologicalState_incubation _ _ rfl
  have hstage : (updateParameters transitionTickState).simulationStage = "incubation" := by
    rw [hu, stepInflammation_simulationStage, stepSebum_simulationStage]
    rfl
  have hb : (updateParameters transitionTickState).currentBacteriaLevel = 61 := by
    rw [hu, stepInflammation_bacteria, stepSebum_bacteria]
    rfl
  have hi : 40 < (updateParameters transitionTickState).currentInflammationLevel := by
    rw [hu, stepInflammation_value _ _ (Or.inl (by norm_num [stepSebum, updateDerivedRates,
      transitionTickState, initialState, BACTERIA_THRESHOLD]))]
    norm_num [stepSebum, updateDerivedRates, transitionTickState, initialState, lt_min_iff]
  have hcst : checkStageTransitions (updateParameters transitionTickState) =
      ({ updateParameters transitionTickState with simulationStage := "comedone" }, true) := by
    unfold checkStageTransitions
    rw [if_pos hstage, if_pos ?_]
    refine ⟨?_, ?_⟩
    · rw [hb]; norm_num [BACTERIA_THRESHOLD]
    · exact lt_of_le_of_lt (by norm_num [INFLAMMATION_THRESHOLD]) hi
  constructor
  · show (checkStageTransitions (updateParameters transitionTickState)).2 = true
    rw [hcst]
  · show (checkStageTransitions (updateParameters transitionTickState)).1.simulationStage = "comedone"
    rw [hcst]

/-- C9: starting from the incubation stage, eight consecutive calls to
advanceToNextStage visit comedone, papule, pustule, rupture, healing,
resolved, incubation and wrap to comedone, in that order; immediately
after each call the forced levels sit at the qualifying threshold of the
entered stage, entering rupture resets healingProgress to 0, entering
resolved zeroes inflammation and pus, and the wrap to incubation performs
a full level reset. -/
theorem advanceToNextStage_cycle (s : SimState) :
    let s1 := advanceToNextStage { s with simulationStage := "incubation" }
    let s2 := advanceToNextStage s1
    let s3 := advanceToNextStage s2
    let s4 := advanceToNextStage s3
    let s5 := advanceToNextStage s4
    let s6 := advanceToNextStage s5
    let s7 := advanceToNextStage s6
    let s8 := advanceToNextStage s7
    s1.simulationStage = "comedone" ∧ s1.currentSebumLevel = SEBUM_THRESHOLD ∧
    s2.simulationStage = "papule" ∧ s2.currentInflammationLevel = INFLAMMATION_THRESHOLD ∧
    BACTERIA_THRESHOLD < s2.currentBacteriaLevel ∧
    s3.simulationStage = "pustule" ∧ s3.currentPusLevel = PUS_THRESHOLD ∧
    s4.simulationStage = "rupture" ∧ s4.currentPusLevel = RUPTURE_THRESHOLD ∧
    s4.healingProgress = 0 ∧
    s5.simulationStage = "healing" ∧ s5.healingProgress = HEALING_THRESHOLD ∧
    s6.simulationStage = "resolved" ∧ s6.healingProgress = RESOLVED_THRESHOLD ∧
    s6.currentInflammationLevel = 0 ∧ s6.currentPusLevel = 0 ∧
    s7.simulationStage = "incubation" ∧ s7.currentSebumLevel = 20 ∧
    s7.currentBacteriaLevel = 0 ∧ s7.currentInflammationLevel = 0 ∧
    s7.currentNeutrophilLevel = 0 ∧ s7.currentPusLevel = 0 ∧ s7.healingProgress = 0 ∧
    s8.simulationStage = "comedone" ∧ s8.currentSebumLevel = SEBUM_THRESHOLD := by
  simp only [advanceToNextStage]
  simp [SEBUM_THRESHOLD, BACTERIA_THRESHOLD, INFLAMMATION_THRESHOLD, PUS_THRESHOLD,
    RUPTURE_THRESHOLD, HEALING_THRESHOLD, RESOLVED_THRESHOLD]

end DermaSim
